import Mathlib

/-!
Verification of the claim decision pipeline of the claimsphere-ai backend:
the claim state machine, the rule-based validation engine, the heuristic
duplicate detector and the auto-approval evaluator, shallowly embedded from
src/backend/services/{claim_service,validation_service,auto_approval_service}.py
and src/backend/database/models.py.

Conventions of the embedding:
* Python float columns (amounts, scores, thresholds) are modelled as ℚ;
* datetime columns used only through day differences are modelled as Int
  (days since an arbitrary epoch); timestamps stamped by the code are Nat;
* primary keys (uuid strings in the database) are modelled as Nat — uuid
  strings are never empty, so Python truthiness of an id is plain presence;
* a nullable column is an Option; a JSON list column is a List;
* raising an exception is modelled with Except String; a caught exception
  carries the message str(e).
-/

namespace ClaimSphere

/-- ClaimStatus enum of models.py. -/
inductive ClaimStatus where
  | draft
  | submitted
  | extracted
  | validated
  | auto_approved
  | pending_review
  | approved
  | denied
  | pended
  | closed
deriving DecidableEq, Repr

/-- ClaimCategory enum of models.py. -/
inductive ClaimCategory where
  | medical
  | dental
  | vision
  | pharmacy
  | mental_health
  | hospital
  | emergency
  | preventive
  | other
deriving DecidableEq, Repr

/-- The .value string of a ClaimCategory member. -/
def ClaimCategory.value : ClaimCategory → String
  | .medical => "medical"
  | .dental => "dental"
  | .vision => "vision"
  | .pharmacy => "pharmacy"
  | .mental_health => "mental_health"
  | .hospital => "hospital"
  | .emergency => "emergency"
  | .preventive => "preventive"
  | .other => "other"

/-- The .value string of a ClaimStatus member. -/
def ClaimStatus.value : ClaimStatus → String
  | .draft => "draft"
  | .submitted => "submitted"
  | .extracted => "extracted"
  | .validated => "validated"
  | .auto_approved => "auto_approved"
  | .pending_review => "pending_review"
  | .approved => "approved"
  | .denied => "denied"
  | .pended => "pended"
  | .closed => "closed"

/-- PolicyStatus enum of models.py. -/
inductive PolicyStatus where
  | active
  | inactive
  | suspended
  | expired
deriving DecidableEq, Repr

/-- ClaimDocument row (the fields the services read). -/
structure ClaimDocument where
  claim_id : Nat
  file_name : String
  file_hash : String
  file_type : Option String
  file_size : Nat
  ocr_text : Option String := none
  ocr_quality_score : Option ℚ := none
  document_type : Option String := none
deriving DecidableEq, Repr

/-- Claim row (the fields the decision pipeline reads and writes).
The documents relationship is inlined as a list field. -/
structure Claim where
  id : Nat
  claim_number : String
  user_id : Nat
  plan_id : Option Nat := none
  status : ClaimStatus := .draft
  category : ClaimCategory := .other
  total_amount : ℚ := 0
  approved_amount : Option ℚ := none
  service_date : Option Int := none
  provider_name : Option String := none
  provider_npi : Option String := none
  diagnosis_codes : List String := []
  procedure_codes : List String := []
  ocr_quality_score : Option ℚ := none
  extraction_confidence : Option ℚ := none
  duplicate_score : ℚ := 0
  fraud_risk_score : ℚ := 0
  auto_approval_eligible : Bool := false
  auto_approval_reasons : List (Option String) := []
  documents : List ClaimDocument := []
  updated_at : Nat := 0
  submitted_at : Option Nat := none
  processed_at : Option Nat := none
deriving DecidableEq, Repr

/-- Plan row (the auto-approval threshold fields). -/
structure Plan where
  id : Nat
  name : String
  auto_approve_enabled : Bool := false
  auto_approve_amount_cap : ℚ := 0
  min_ocr_quality_score : ℚ := mkRat 8 10
  min_confidence_score : ℚ := mkRat 85 100
  max_duplicate_score : ℚ := mkRat 3 10
  max_fraud_risk_score : ℚ := mkRat 2 10
  required_documents : List String := []
  is_active : Bool := true
deriving DecidableEq, Repr

/-- MemberPolicy row (the fields the eligibility check reads). -/
structure MemberPolicy where
  id : Nat
  user_id : Nat
  plan_id : Nat
  member_id : String
  start_date : Option Int := none
  end_date : Option Int := none
  status : PolicyStatus := .active
deriving DecidableEq, Repr

/-- DuplicateMatch row (the fields the duplicate detector writes). -/
structure DuplicateMatch where
  claim_id : Nat
  matched_claim_id : Nat
  similarity_score : ℚ
  match_reasons : List String
deriving DecidableEq, Repr

/-- ClaimService._get_valid_transitions of claim_service.py: the static
adjacency table of the state machine. A status missing from the Python dict
would map to [] via .get(current_status, []); the dict is total, so every
status is listed. -/
def getValidTransitions : ClaimStatus → List ClaimStatus
  | .draft => [.submitted]
  | .submitted => [.extracted, .pending_review]
  | .extracted => [.validated, .pending_review]
  | .validated => [.auto_approved, .pending_review, .approved, .denied]
  | .pending_review => [.approved, .denied, .pended]
  | .pended => [.submitted, .approved, .denied]
  | .auto_approved => [.closed]
  | .approved => [.closed]
  | .denied => [.closed]
  | .closed => []

/-- The error message raised by transition_status on an illegal move. -/
def illegalTransitionMsg (old new : ClaimStatus) : String :=
  "Invalid status transition from " ++ old.value ++ " to " ++ new.value

/-- ClaimService.transition_status of claim_service.py. The raised
ValueError (the IllegalTransitionError of the design) is the .error case;
the db commit and the audit call mutate no claim field and are omitted.
now stands for datetime.utcnow() at the call. -/
def transition_status (claim : Claim) (new_status : ClaimStatus) (now : Nat) :
    Except String Claim :=
  let old_status := claim.status
  if new_status ∈ getValidTransitions old_status then
    let claim := { claim with status := new_status, updated_at := now }
    let claim :=
      if new_status = .submitted then
        { claim with submitted_at := some now }
      else if new_status = .approved ∨ new_status = .denied ∨
          new_status = .auto_approved then
        { claim with processed_at := some now }
      else claim
    .ok claim
  else
    .error (illegalTransitionMsg old_status new_status)

/-- The transition graph exactly as the table of §4.4 of the spec lists it,
written from the spec text for comparison with getValidTransitions. -/
def specAdjacency : ClaimStatus → List ClaimStatus
  | .draft => [.submitted]
  | .submitted => [.extracted, .pending_review]
  | .extracted => [.validated, .pending_review]
  | .validated => [.auto_approved, .pending_review, .approved, .denied]
  | .pending_review => [.approved, .denied, .pended]
  | .pended => [.submitted, .approved, .denied]
  | .auto_approved => [.closed]
  | .approved => [.closed]
  | .denied => [.closed]
  | .closed => []

/-- The typed fields a condition_json dict may carry, one Option per key
the checks of validation_service.py read via condition.get. A key absent
from the dict is none; list-valued keys default to [] exactly as the
corresponding .get defaults do. -/
structure Condition where
  max_amount : Option ℚ := none
  min_amount : Option ℚ := none
  max_days_past : Option Int := none
  max_days_future : Option Int := none
  fields : List String := []
  document_types : List String := []
  require_active_policy : Option Bool := none
  similarity_threshold : Option ℚ := none
  require_npi : Option Bool := none
  allowed_provider_types : List String := []
  category : Option String := none
  required_codes : List String := []
deriving DecidableEq, Repr

/-- ValidationRule row (the fields the engine reads). -/
structure ValidationRule where
  id : Nat
  plan_id : Option Nat := none
  name : String
  rule_type : String
  condition : Condition := {}
  error_message : Option String := none
  severity : String := "error"
  is_active : Bool := true
  order : Int := 0
deriving DecidableEq, Repr

/-- ValidationResult row (the fields the engine writes and the summary
reads); details_json is diagnostic only and omitted. -/
structure ValidationResult where
  claim_id : Nat
  rule_id : Option Nat
  rule_name : String
  passed : Bool
  severity : String
  message : Option String
deriving DecidableEq, Repr

/-- The database state the decision pipeline touches, one list per table;
queries become list traversals, .first() becomes List.find?. -/
structure DB where
  plans : List Plan := []
  rules : List ValidationRule := []
  policies : List MemberPolicy := []
  claims : List Claim := []
  dup_matches : List DuplicateMatch := []
  documents : List ClaimDocument := []
deriving Repr

/-- Python truthiness of an optional string: present and nonempty. -/
def strTruthy : Option String → Bool
  | none => false
  | some s => s ≠ ""

/-- Python `a or b` on an optional string a (an empty string is falsy). -/
def pyOrStr (a b : Option String) : Option String :=
  match a with
  | none => b
  | some s => if s = "" then b else some s

/-- Numeric rendering inside engine messages. Python interpolates floats;
the exact float formatting is outside the model, so a fixed rational
rendering stands in for it. -/
def ratStr (q : ℚ) : String :=
  toString q

/-- ValidationService._check_amount_limit. condition.get("max_amount") is
used under Python truthiness, so a stored 0 (falsy) skips the max check;
min_amount defaults to 0. -/
def check_amount_limit (claim : Claim) (condition : Condition) :
    Bool × Option String :=
  let min_amount := condition.min_amount.getD 0
  if claim.total_amount < min_amount then
    (false, some ("Claim amount $" ++ ratStr claim.total_amount ++
      " is below minimum $" ++ ratStr min_amount))
  else
    match condition.max_amount with
    | some m =>
        if m ≠ 0 ∧ claim.total_amount > m then
          (false, some ("Claim amount $" ++ ratStr claim.total_amount ++
            " exceeds maximum $" ++ ratStr m))
        else (true, none)
    | none => (true, none)

/-- ValidationService._check_date_range; today models
datetime.utcnow().date() as an epoch day count. -/
def check_date_range (today : Int) (claim : Claim) (condition : Condition) :
    Bool × Option String :=
  let max_days_past := condition.max_days_past.getD 365
  let max_days_future := condition.max_days_future.getD 0
  match claim.service_date with
  | none => (false, some "Service date is required")
  | some service_date =>
    let days_diff := today - service_date
    if days_diff > max_days_past then
      (false, some ("Service date is " ++ toString days_diff ++
        " days ago, maximum is " ++ toString max_days_past ++ " days"))
    else if days_diff < -max_days_future then
      (false, some ("Service date is " ++ toString (-days_diff) ++
        " days in the future, maximum is " ++ toString max_days_future ++
        " days"))
    else (true, none)

/-- getattr(claim, field, None) tested against None, the empty string and
the empty list, per attribute of the modelled Claim; a name that is not an
attribute of Claim yields getattr's None default, hence missing. Non-null
non-string non-list columns (numbers, enums, booleans) are never equal to
None, to the empty string or to the empty list in Python. -/
def claimFieldMissing (claim : Claim) (f : String) : Bool :=
  if f = "id" ∨ f = "user_id" ∨ f = "status" ∨ f = "category" ∨
      f = "total_amount" ∨ f = "duplicate_score" ∨ f = "fraud_risk_score" ∨
      f = "auto_approval_eligible" ∨ f = "created_at" ∨ f = "updated_at" then
    false
  else if f = "claim_number" then claim.claim_number = ""
  else if f = "plan_id" then claim.plan_id.isNone
  else if f = "service_date" then claim.service_date.isNone
  else if f = "provider_name" then !strTruthy claim.provider_name
  else if f = "provider_npi" then !strTruthy claim.provider_npi
  else if f = "diagnosis_codes" then claim.diagnosis_codes = []
  else if f = "procedure_codes" then claim.procedure_codes = []
  else if f = "ocr_quality_score" then claim.ocr_quality_score.isNone
  else if f = "extraction_confidence" then claim.extraction_confidence.isNone
  else if f = "approved_amount" then claim.approved_amount.isNone
  else if f = "auto_approval_reasons" then claim.auto_approval_reasons = []
  else if f = "documents" then claim.documents = []
  else true

/-- ValidationService._check_required_fields. -/
def check_required_fields (claim : Claim) (condition : Condition) :
    Bool × Option String :=
  let missing := condition.fields.filter (claimFieldMissing claim)
  if missing ≠ [] then
    (false, some ("Missing required fields: " ++ String.intercalate ", " missing))
  else (true, none)

/-- The document types uploaded on a claim:
[doc.document_type for doc in claim.documents if doc.document_type]. -/
def uploadedTypes (claim : Claim) : List String :=
  (claim.documents.filter (fun d => strTruthy d.document_type)).filterMap
    (fun d => d.document_type)

/-- ValidationService._check_required_documents. -/
def check_required_documents (claim : Claim) (condition : Condition) :
    Bool × Option String :=
  let required_types := condition.document_types
  if required_types = [] then (true, none)
  else
    let uploaded := uploadedTypes claim
    let missing := required_types.filter (fun t => t ∉ uploaded)
    if missing ≠ [] then
      (false, some ("Missing required documents: " ++
        String.intercalate ", " missing))
    else (true, none)

/-- ValidationService._check_eligibility. -/
def check_eligibility (db : DB) (claim : Claim) (condition : Condition) :
    Bool × Option String :=
  let require_active := condition.require_active_policy.getD true
  match claim.plan_id with
  | none =>
      if require_active then (false, some "No plan associated with claim")
      else (true, none)
  | some plan_id =>
    match db.policies.find? (fun p => p.user_id == claim.user_id &&
        p.plan_id == plan_id) with
    | none => (false, some "No policy found for this member and plan")
    | some policy =>
      if policy.status ≠ PolicyStatus.active then
        (false, some "Policy is not active")
      else
        match claim.service_date with
        | none => (true, none)
        | some service_date =>
          if policy.start_date.any (fun s => service_date < s) then
            (false, some "Service date is before policy start date")
          else if policy.end_date.any (fun e => service_date > e) then
            (false, some "Service date is after policy end date")
          else (true, none)

/-- ValidationService._check_duplicates; the stored threshold defaults to
0.85. -/
def check_duplicates (claim : Claim) (condition : Condition) :
    Bool × Option String :=
  let threshold := condition.similarity_threshold.getD (mkRat 85 100)
  if claim.duplicate_score ≥ threshold then
    (false, some ("Potential duplicate detected (similarity: " ++
      ratStr claim.duplicate_score ++ ")"))
  else (true, none)

/-- ValidationService._check_provider. allowed_provider_types is read by
the source but never used afterwards. Python str.isdigit is true iff the
string is nonempty and all digits. -/
def check_provider (claim : Claim) (condition : Condition) :
    Bool × Option String :=
  let require_npi := condition.require_npi.getD false
  if require_npi ∧ !strTruthy claim.provider_npi then
    (false, some "Provider NPI is required")
  else
    match claim.provider_npi with
    | some npi =>
        if npi ≠ "" then
          if !(npi ≠ "" ∧ npi.all Char.isDigit) ∨ npi.length ≠ 10 then
            (false, some "Invalid NPI format (must be 10 digits)")
          else (true, none)
        else (true, none)
    | none => (true, none)

/-- ValidationService._check_category_rules. A claim of another category
passes as skipped; max_amount is again under Python truthiness. -/
def check_category_rules (claim : Claim) (condition : Condition) :
    Bool × Option String :=
  if condition.category ≠ some claim.category.value then (true, none)
  else
    let codesCheck : Bool × Option String :=
      let required_codes := condition.required_codes
      if required_codes ≠ [] then
        let all_codes := claim.diagnosis_codes ++ claim.procedure_codes
        if ¬ required_codes.any (fun code => code ∈ all_codes) then
          (false, some ("Missing required codes for " ++
            (condition.category.getD "")))
        else (true, none)
      else (true, none)
    match condition.max_amount with
    | some m =>
        if m ≠ 0 ∧ claim.total_amount > m then
          (false, some ("Amount exceeds " ++ (condition.category.getD "") ++
            " category limit of $" ++ ratStr m))
        else codesCheck
    | none => codesCheck

/-- The body of the try block of ValidationService._evaluate_rule: the
eight-way dispatch on rule_type. The unknown-type branch of the source
sets only the message and leaves the initialisation passed = True in
place. In the typed embedding none of the concrete checks can raise, so
the body always returns .ok; the surrounding try/except skeleton is kept
generic in evaluateRuleWith for arbitrary raising bodies. -/
def ruleCheckBody (db : DB) (today : Int) (claim : Claim)
    (rule : ValidationRule) : Except String (Bool × Option String) :=
  if rule.rule_type = "amount_limit" then
    .ok (check_amount_limit claim rule.condition)
  else if rule.rule_type = "date_range" then
    .ok (check_date_range today claim rule.condition)
  else if rule.rule_type = "required_fields" then
    .ok (check_required_fields claim rule.condition)
  else if rule.rule_type = "required_documents" then
    .ok (check_required_documents claim rule.condition)
  else if rule.rule_type = "eligibility" then
    .ok (check_eligibility db claim rule.condition)
  else if rule.rule_type = "duplicate_check" then
    .ok (check_duplicates claim rule.condition)
  else if rule.rule_type = "provider_validation" then
    .ok (check_provider claim rule.condition)
  else if rule.rule_type = "category_rules" then
    .ok (check_category_rules claim rule.condition)
  else
    .ok (true, some ("Unknown rule type: " ++ rule.rule_type))

/-- The try/except skeleton of ValidationService._evaluate_rule over an
arbitrary try-block body: a raised exception e becomes a failed result
whose message carries str(e); the final ValidationResult applies
message or rule.error_message as the source does. -/
def evaluateRuleWith
    (body : Claim → ValidationRule → Except String (Bool × Option String))
    (claim : Claim) (rule : ValidationRule) : ValidationResult :=
  let pm : Bool × Option String :=
    match body claim rule with
    | .ok x => x
    | .error e => (false, some ("Rule evaluation error: " ++ e))
  { claim_id := claim.id
    rule_id := some rule.id
    rule_name := rule.name
    passed := pm.1
    severity := rule.severity
    message := pyOrStr pm.2 rule.error_message }

/-- ValidationService._evaluate_rule with the concrete dispatch body. -/
def evaluate_rule (db : DB) (today : Int) (claim : Claim)
    (rule : ValidationRule) : ValidationResult :=
  evaluateRuleWith (ruleCheckBody db today) claim rule

/-- The applicable-rule query of ValidationService.validate_claim: active
rules that are global or scoped to the claim's plan, ordered by order
(stable on ties, matching insertion order). -/
def applicableRules (db : DB) (claim : Claim) : List ValidationRule :=
  List.insertionSort (fun a b => a.order ≤ b.order)
    (db.rules.filter (fun r =>
      r.is_active && (r.plan_id.isNone || r.plan_id == claim.plan_id)))

/-- ValidationService.validate_claim over an arbitrary rule-evaluation
body (the loop appends one result per applicable rule; persisting the
results mutates no claim field). -/
def validateClaimWith
    (body : Claim → ValidationRule → Except String (Bool × Option String))
    (db : DB) (claim : Claim) : List ValidationResult :=
  (applicableRules db claim).map (evaluateRuleWith body claim)

/-- ValidationService.validate_claim with the concrete dispatch body. -/
def validate_claim (db : DB) (today : Int) (claim : Claim) :
    List ValidationResult :=
  validateClaimWith (ruleCheckBody db today) db claim

/-- The summary dict built by ValidationService.get_validation_summary. -/
structure ValidationSummary where
  total_rules : Nat
  passed : Nat
  failed : Nat
  errors : Nat
  warnings : Nat
  is_valid : Bool
  error_messages : List (Option String)
  warning_messages : List (Option String)
deriving DecidableEq, Repr

/-- DecisionType enum of models.py. -/
inductive DecisionType where
  | approved
  | denied
  | pended
  | escalated
deriving DecidableEq, Repr

/-- Decision row (the fields auto_approve_claim writes). -/
structure Decision where
  claim_id : Nat
  decided_by_user_id : Option Nat
  decision : DecisionType
  reason_code : Option String
  reason_description : Option String
  notes : Option String
  approved_amount : Option ℚ
  is_auto_decision : Bool
  auto_decision_reasons : List (Option String)
deriving DecidableEq, Repr

/-- ValidationService.get_validation_summary. -/
def get_validation_summary (results : List ValidationResult) :
    ValidationSummary :=
  let passed := results.filter (fun r => r.passed)
  let failed := results.filter (fun r => !r.passed)
  let errors := failed.filter (fun r => r.severity == "error")
  let warnings := failed.filter (fun r => r.severity == "warning")
  { total_rules := results.length
    passed := passed.length
    failed := failed.length
    errors := errors.length
    warnings := warnings.length
    is_valid := errors.length == 0
    error_messages := errors.map (fun r => r.message)
    warning_messages := warnings.map (fun r => r.message) }

/-- AutoApprovalService._check_plan_thresholds: the failures collected
against the plan's thresholds, in source order. The amount cap is compared
only when the cap is positive, so a cap of 0 skips the amount check
entirely. The OCR comparison runs only when ocr_quality_score is not None.
Python truthiness guards plan.required_documents (an empty list skips the
document check). -/
def check_plan_thresholds (claim : Claim) (plan : Plan) :
    List (Option String) :=
  let amountFails :=
    if plan.auto_approve_amount_cap > 0 ∧
        claim.total_amount > plan.auto_approve_amount_cap then
      [some ("Amount $" ++ ratStr claim.total_amount ++
        " exceeds auto-approve cap $" ++ ratStr plan.auto_approve_amount_cap)]
    else []
  let ocrFails :=
    match claim.ocr_quality_score with
    | some q =>
        if q < plan.min_ocr_quality_score then
          [some ("OCR quality " ++ ratStr q ++ " below threshold " ++
            ratStr plan.min_ocr_quality_score)]
        else []
    | none => []
  let dupFails :=
    if claim.duplicate_score > plan.max_duplicate_score then
      [some ("Duplicate score " ++ ratStr claim.duplicate_score ++
        " exceeds threshold " ++ ratStr plan.max_duplicate_score)]
    else []
  let docFails :=
    if plan.required_documents ≠ [] then
      let uploaded := uploadedTypes claim
      let missing := plan.required_documents.filter (fun t => t ∉ uploaded)
      if missing ≠ [] then
        [some ("Missing required documents: " ++
          String.intercalate ", " missing)]
      else []
    else []
  amountFails ++ ocrFails ++ dupFails ++ docFails

/-- The plan lookup
db.query(Plan).filter(Plan.id == claim.plan_id).first() if claim.plan_id else None
repeated in steps 4 and 5 of evaluate_claim. -/
def planOfClaim (db : DB) (claim : Claim) : Option Plan :=
  match claim.plan_id with
  | some pid => db.plans.find? (fun p => p.id == pid)
  | none => none

/-- AutoApprovalService.evaluate_claim: the eligibility verdict, the
returned reasons list (failed_checks when any check failed, the passing
justifications otherwise), and the claim as mutated before db.commit
(auto_approval_eligible and auto_approval_reasons). today parametrises the
date used by date_range rules during the validation pass.

Step 3 of the source reads `if validation_summary["warnings"]:` — and the
summary's "warnings" entry is already the COUNT, an int — then builds the
message with len(validation_summary["warnings"]). len() of an int raises
TypeError("object of type 'int' has no len()"), and evaluate_claim has no
try/except, so whenever the claim has any warning-severity failure the
call raises instead of returning: no eligibility verdict is produced and
the claim is left unmutated. The .error case carries str(e) of that
TypeError. -/
def evaluate_claim (db : DB) (today : Int) (claim : Claim) :
    Except String (Bool × List (Option String) × Claim) :=
  -- 1. Check if plan allows auto-approval
  let planStep : List (Option String) × List (Option String) :=
    match claim.plan_id with
    | none => ([], [some "No plan associated with claim"])
    | some pid =>
      match db.plans.find? (fun p => p.id == pid) with
      | none => ([], [some "Plan not found"])
      | some plan =>
        if !plan.auto_approve_enabled then
          ([], [some "Auto-approval not enabled for this plan"])
        else if !plan.is_active then
          ([], [some "Plan is not active"])
        else
          let checks := check_plan_thresholds claim plan
          if checks = [] then
            ([some ("Plan " ++ plan.name ++ " allows auto-approval")], [])
          else ([], checks)
  let reasons0 := planStep.1
  let failed0 := planStep.2
  -- 2. Run validation rules
  let validation_results := validate_claim db today claim
  let summary := get_validation_summary validation_results
  let reasons1 :=
    if summary.is_valid then reasons0 ++ [some "All validation rules passed"]
    else reasons0
  let failed1 :=
    if summary.is_valid then failed0 else failed0 ++ summary.error_messages
  -- 3. Check for warnings that might need review: a nonzero warning
  -- count enters the branch and the len(int) interpolation raises
  if summary.warnings ≠ 0 then
    .error "object of type 'int' has no len()"
  else
  -- 4. Check extraction confidence
  let confStep : List (Option String) × List (Option String) :=
    match claim.extraction_confidence with
    | none => (reasons1, failed1)
    | some conf =>
      let min_confidence :=
        ((planOfClaim db claim).map (fun p => p.min_confidence_score)).getD
          (mkRat 85 100)
      if conf < min_confidence then
        (reasons1, failed1 ++ [some ("Extraction confidence " ++
          ratStr conf ++ " below threshold " ++ ratStr min_confidence)])
      else
        (reasons1 ++ [some ("Extraction confidence " ++ ratStr conf ++
          " meets threshold")], failed1)
  let reasons2 := confStep.1
  let failed3 := confStep.2
  -- 5. Check fraud risk score
  let fraudStep : List (Option String) × List (Option String) :=
    if claim.fraud_risk_score > 0 then
      let max_fraud :=
        ((planOfClaim db claim).map (fun p => p.max_fraud_risk_score)).getD
          (mkRat 2 10)
      if claim.fraud_risk_score > max_fraud then
        (reasons2, failed3 ++ [some ("Fraud risk score " ++
          ratStr claim.fraud_risk_score ++ " exceeds threshold " ++
          ratStr max_fraud)])
      else
        (reasons2 ++ [some ("Fraud risk score " ++
          ratStr claim.fraud_risk_score ++ " within acceptable range")],
          failed3)
    else (reasons2, failed3)
  let reasons := fraudStep.1
  let failed_checks := fraudStep.2
  let is_eligible := failed_checks = []
  let claim2 :=
    if is_eligible then
      { claim with
        auto_approval_eligible := true
        auto_approval_reasons := reasons }
    else
      { claim with
        auto_approval_eligible := false
        auto_approval_reasons := failed_checks }
  .ok (is_eligible, if failed_checks ≠ [] then failed_checks else reasons,
    claim2)

/-- AutoApprovalService.auto_approve_claim: refuses (ValueError) when the
claim is not flagged eligible, otherwise creates the system Decision and
sets the claim to AUTO_APPROVED directly, without consulting the
transition table. The joined notes drop the impossible None entries of
auto_approval_reasons (when eligibility held, every stored reason is a
plain string). -/
def auto_approve_claim (claim : Claim) (now : Nat) :
    Except String (Decision × Claim) :=
  if !claim.auto_approval_eligible then
    .error "Claim is not eligible for auto-approval"
  else
    let decision : Decision :=
      { claim_id := claim.id
        decided_by_user_id := none
        decision := .approved
        reason_code := some "AUTO_APPROVED"
        reason_description := some "Claim met all auto-approval criteria"
        notes := some ("Auto-approved based on: " ++ String.intercalate ", "
          (claim.auto_approval_reasons.filterMap id))
        approved_amount := some claim.total_amount
        is_auto_decision := true
        auto_decision_reasons := claim.auto_approval_reasons }
    let claim2 :=
      { claim with
        status := .auto_approved
        approved_amount := some claim.total_amount
        processed_at := some now
        updated_at := now }
    .ok (decision, claim2)

/-- AutoApprovalService.route_to_agent_queue: sets the claim to
PENDING_REVIEW directly, without consulting the transition table, and
stores the failure reasons. -/
def route_to_agent_queue (claim : Claim) (reasons : List (Option String))
    (now : Nat) : Claim :=
  { claim with
    status := .pending_review
    auto_approval_eligible := false
    auto_approval_reasons := reasons
    updated_at := now }

/-- AutoApprovalService.process_claim: evaluate, then either auto-approve
or route to the agent queue. Returns the action taken, the reasons, the
optional Decision and the final claim; an exception escaping
evaluate_claim (the step-3 TypeError) propagates, process_claim having no
try/except either. -/
def process_claim (db : DB) (today : Int) (now : Nat) (claim : Claim) :
    Except String (String × List (Option String) × Option Decision × Claim) :=
  match evaluate_claim db today claim with
  | .error e => .error e
  | .ok (is_eligible, reasons, claim1) =>
    if is_eligible then
      match auto_approve_claim claim1 now with
      | .ok (decision, claim2) =>
          .ok ("auto_approved", reasons, some decision, claim2)
      | .error e => .error e
    else
      .ok ("routed_to_review", reasons, none,
        route_to_agent_queue claim1 reasons now)

/-- One entry of the duplicates list returned by find_duplicates. -/
structure DupEntry where
  matched_claim : Claim
  similarity_score : ℚ
  match_reasons : List String
deriving DecidableEq, Repr

/-- The amount-proximity signal of find_duplicates: +0.3 when both
amounts are nonzero (Python float truthiness) and they differ by less
than 5% of the first claim's amount (floored at 1). -/
def amountSignal (claim other : Claim) (acc : ℚ × List String) :
    ℚ × List String :=
  if claim.total_amount ≠ 0 ∧ other.total_amount ≠ 0 then
    let amount_diff :=
      |claim.total_amount - other.total_amount| / max claim.total_amount 1
    if amount_diff < mkRat 5 100 then
      (acc.1 + mkRat 3 10, acc.2 ++ ["Similar amount: $" ++
        ratStr claim.total_amount ++ " vs $" ++ ratStr other.total_amount])
    else acc
  else acc

/-- The service-date signal: +0.3 when both dates are present and at most
7 days apart. -/
def dateSignal (claim other : Claim) (acc : ℚ × List String) :
    ℚ × List String :=
  match claim.service_date, other.service_date with
  | some d1, some d2 =>
      let date_diff := |d1 - d2|
      if date_diff ≤ 7 then
        (acc.1 + mkRat 3 10, acc.2 ++ ["Similar date: " ++
          toString date_diff ++ " days apart"])
      else acc
  | _, _ => acc

/-- The provider signal: +0.2 when both names are nonempty and equal
case-insensitively. -/
def providerSignal (claim other : Claim) (acc : ℚ × List String) :
    ℚ × List String :=
  if strTruthy claim.provider_name ∧ strTruthy other.provider_name then
    if (claim.provider_name.getD "").toLower =
        (other.provider_name.getD "").toLower then
      (acc.1 + mkRat 2 10, acc.2 ++ ["Same provider: " ++
        claim.provider_name.getD ""])
    else acc
  else acc

/-- The category signal: +0.1 on equal categories (compared
unconditionally — the column is never null). -/
def categorySignal (claim other : Claim) (acc : ℚ × List String) :
    ℚ × List String :=
  if claim.category = other.category then
    (acc.1 + mkRat 1 10, acc.2 ++ ["Same category: " ++
      claim.category.value])
  else acc

/-- The procedure-code signal: +0.1 when both lists are nonempty and
share a code. -/
def codesSignal (claim other : Claim) (acc : ℚ × List String) :
    ℚ × List String :=
  if claim.procedure_codes ≠ [] ∧ other.procedure_codes ≠ [] then
    let common_codes :=
      claim.procedure_codes.filter (fun c => c ∈ other.procedure_codes)
    if common_codes ≠ [] then
      (acc.1 + mkRat 1 10, acc.2 ++ ["Common procedure codes"])
    else acc
  else acc

/-- The weighted similarity computed inside the loop of
ClaimService.find_duplicates: the five signals applied in source order to
the accumulator started at (0, []). -/
def similarity (claim other : Claim) : ℚ × List String :=
  codesSignal claim other (categorySignal claim other
    (providerSignal claim other (dateSignal claim other
      (amountSignal claim other (0, [])))))

/-- The candidate pool queried by find_duplicates: other claims of the
same user whose status is neither DRAFT nor DENIED. -/
def dupCandidates (db : DB) (claim : Claim) : List Claim :=
  db.claims.filter (fun other =>
    other.id ≠ claim.id ∧ other.user_id = claim.user_id ∧
    other.status ≠ ClaimStatus.draft ∧ other.status ≠ ClaimStatus.denied)

/-- One iteration of the loop of find_duplicates: score the pair, and at
or above the threshold append a duplicates entry and (only when the
ordered pair has no row yet) a DuplicateMatch row, the score capped at
1.0. -/
def findDupStep (claim : Claim) (threshold : ℚ)
    (acc : List DupEntry × List DuplicateMatch) (other : Claim) :
    List DupEntry × List DuplicateMatch :=
  let r := similarity claim other
  let similarity_score := r.1
  let match_reasons := r.2
  if similarity_score ≥ threshold then
    let entry : DupEntry :=
      { matched_claim := other
        similarity_score := min similarity_score 1
        match_reasons := match_reasons }
    let rows :=
      if acc.2.any (fun m => m.claim_id == claim.id &&
          m.matched_claim_id == other.id) then
        acc.2
      else
        acc.2 ++ [{ claim_id := claim.id
                    matched_claim_id := other.id
                    similarity_score := min similarity_score 1
                    match_reasons := match_reasons }]
    (acc.1 ++ [entry], rows)
  else acc

/-- ClaimService.find_duplicates (the source default threshold is 0.7; the
intake pipeline calls it with 0.6). Returns the duplicates list, the claim
as committed (duplicate_score raised to the maximum entry score only when
the list is nonempty — an empty result leaves the stored score as it was),
and the database with the appended DuplicateMatch rows. -/
def find_duplicates (db : DB) (claim : Claim) (threshold : ℚ) :
    List DupEntry × Claim × DB :=
  let pool := dupCandidates db claim
  let res := pool.foldl (findDupStep claim threshold) ([], db.dup_matches)
  let duplicates := res.1
  let claim2 :=
    match duplicates with
    | [] => claim
    | d :: rest =>
        let best := rest.foldl (fun m e => max m e.similarity_score)
          d.similarity_score
        { claim with duplicate_score := best }
  (duplicates, claim2, { db with dup_matches := res.2 })

/-- An uploaded file as the services see it. The SHA-256 of the bytes is
modelled abstractly: bytes_hash stands for
hashlib.sha256(file_bytes).hexdigest(), so equal bytes give equal hashes
and the model identifies content by its hash. -/
structure UploadFile where
  filename : String
  content_type : Option String
  bytes_hash : String
  size : Nat
deriving DecidableEq, Repr

/-- The outcome of ClaimService._process_ocr, an external collaborator:
that helper catches its own exceptions and always returns a dict with a
text and a quality_score (0.0 with empty text on failure). -/
structure OcrResult where
  text : String
  quality_score : ℚ
deriving DecidableEq, Repr

/-- The dict returned by the external ERNIE extractor, as read by
ClaimService._extract_fields. String values are the raw extracted strings
(total_amount is kept in its str() form); total_amount_val and
date_of_incident_val are the float()/fromisoformat() parses when those
succeed, none when the conversion raises. -/
structure ExtractedData where
  claimant_name : Option String := none
  date_of_incident : Option String := none
  total_amount : Option String := none
  currency : Option String := none
  provider_name : Option String := none
  policy_number : Option String := none
  diagnosis : Option String := none
  procedure_code : Option String := none
  claim_type : Option String := none
  description : Option String := none
  total_amount_val : Option ℚ := none
  date_of_incident_val : Option Int := none
deriving DecidableEq, Repr

/-- The category_map dict of ClaimService._extract_fields with its .get
default of OTHER. -/
def categoryMapGet (detected : String) : ClaimCategory :=
  if detected = "medical" then .medical
  else if detected = "dental" then .dental
  else if detected = "vision" then .vision
  else if detected = "pharmacy" then .pharmacy
  else if detected = "mental_health" then .mental_health
  else if detected = "hospital" then .hospital
  else if detected = "emergency" then .emergency
  else if detected = "preventive" then .preventive
  else if detected = "insurance" then .other
  else if detected = "travel" then .other
  else if detected = "property" then .other
  else if detected = "business" then .other
  else if detected = "health" then .medical
  else if detected = "prescription" then .pharmacy
  else if detected = "doctor" then .medical
  else .other

/-- Whether needle occurs as a contiguous run of hay. -/
def infixCh (needle : List Char) : List Char → Bool
  | [] => needle.isEmpty
  | c :: t => needle.isPrefixOf (c :: t) || infixCh needle t

/-- Python `needle in haystack` on strings. -/
def containsSub (haystack needle : String) : Bool :=
  infixCh needle.toList haystack.toList

/-- Python `any(kw in text for kw in kws)`. -/
def anyKeyword (text : String) (kws : List String) : Bool :=
  kws.any (fun kw => containsSub text kw)

/-- The keyword fallback categorisation of ClaimService._extract_fields,
applied when the category is still OTHER and the OCR text is nonempty. -/
def keywordCategory (text_lower : String) : ClaimCategory :=
  if anyKeyword text_lower ["dental", "dentist", "tooth", "teeth",
      "orthodont"] then .dental
  else if anyKeyword text_lower ["vision", "eye", "optical", "glasses",
      "lens", "optometr"] then .vision
  else if anyKeyword text_lower ["pharmacy", "prescription", "rx", "drug",
      "medication"] then .pharmacy
  else if anyKeyword text_lower ["mental", "psych", "counsel", "therapy",
      "behavioral"] then .mental_health
  else if anyKeyword text_lower ["hospital", "inpatient", "admission"]
    then .hospital
  else if anyKeyword text_lower ["emergency", "er ", "urgent care",
      "ambulance"] then .emergency
  else if anyKeyword text_lower ["preventive", "annual", "checkup",
      "physical", "vaccine", "screening"] then .preventive
  else if anyKeyword text_lower ["medical", "doctor", "clinic", "physician",
      "health", "patient"] then .medical
  else .other

/-- True when at least one of the ten field_mappings values of
ClaimService._extract_fields is truthy; each stored field contributes the
constant confidence 0.85, so the claim's extraction_confidence becomes
0.85 (the mean of equal values) exactly when some field was stored. -/
def anyExtractedField (ed : ExtractedData) : Bool :=
  strTruthy ed.claimant_name || strTruthy ed.date_of_incident ||
  strTruthy ed.total_amount || strTruthy ed.currency ||
  strTruthy ed.provider_name || strTruthy ed.policy_number ||
  strTruthy ed.diagnosis || strTruthy ed.procedure_code ||
  strTruthy ed.claim_type || strTruthy ed.description

/-- Stage 1 of the _extract_fields claim updates: each stored field
contributes the constant confidence 0.85, so extraction_confidence
becomes 0.85 exactly when some field was stored. -/
def efConfidence (ed : ExtractedData) (claim : Claim) : Claim :=
  if anyExtractedField ed then
    { claim with extraction_confidence := some (mkRat 85 100) }
  else claim

/-- Stage 2: total_amount from the extractor when the claim has none
(Python truthiness: 0 counts as unset); a failed float() leaves it. -/
def efAmount (ed : ExtractedData) (claim : Claim) : Claim :=
  if strTruthy ed.total_amount ∧ claim.total_amount = 0 then
    match ed.total_amount_val with
    | some v => { claim with total_amount := v }
    | none => claim
  else claim

/-- Stage 3: provider_name when the claim has none. -/
def efProvider (ed : ExtractedData) (claim : Claim) : Claim :=
  if strTruthy ed.provider_name ∧ !strTruthy claim.provider_name then
    { claim with provider_name := ed.provider_name }
  else claim

/-- Stage 4: service_date from date_of_incident when the claim has none;
a failed fromisoformat() leaves it. -/
def efServiceDate (ed : ExtractedData) (claim : Claim) : Claim :=
  if strTruthy ed.date_of_incident ∧ claim.service_date = none then
    match ed.date_of_incident_val with
    | some d => { claim with service_date := some d }
    | none => claim
  else claim

/-- Stage 5: category from the extracted claim_type via category_map. -/
def efClaimType (ed : ExtractedData) (claim : Claim) : Claim :=
  match ed.claim_type with
  | some ct =>
      if ct ≠ "" then
        { claim with category := categoryMapGet (ct.toLower.trim) }
      else claim
  | none => claim

/-- Stage 6: keyword fallback category from the OCR text when the
category is still OTHER. -/
def efKeywordCat (ocr_text : String) (claim : Claim) : Claim :=
  if claim.category = ClaimCategory.other ∧ ocr_text ≠ "" then
    { claim with category := keywordCategory ocr_text.toLower }
  else claim

/-- The claim updates of ClaimService._extract_fields, in source order
(the ExtractedField rows live in a table no claim reads; persisting them
mutates no claim field and is omitted). -/
def extract_fields_update (claim : Claim) (ed : ExtractedData)
    (ocr_text : String) : Claim :=
  efKeywordCat ocr_text (efClaimType ed (efServiceDate ed
    (efProvider ed (efAmount ed (efConfidence ed claim)))))

/-- The guard on the AI branch:
process_with_ai and file.content_type and
(file.content_type.startswith("image/") or file.content_type == "application/pdf"). -/
def aiBranchActive (process_with_ai : Bool) (file : UploadFile) : Bool :=
  process_with_ai &&
    (match file.content_type with
     | some ct => ct ≠ "" && (ct.startsWith "image/" || ct = "application/pdf")
     | none => false)

/-- ClaimService.create_claim_from_document. External effects are passed
in as values: ocr is the _process_ocr outcome and extracted the ERNIE
output (none when the extractor raised — _extract_fields catches that and
changes nothing); new_id and claim_number model the generated primary key
and claim number. Returns the committed claim and database. The claim row
appended to the claims table is the final claim object (SQLAlchemy
aliasing). -/
def create_claim_from_document (db : DB) (user_id : Nat)
    (file : UploadFile) (process_with_ai : Bool) (ocr : OcrResult)
    (extracted : Option ExtractedData) (new_id : Nat)
    (claim_number : String) : Claim × DB :=
  let file_hash := file.bytes_hash
  let existing_doc := db.documents.find? (fun d => d.file_hash == file_hash)
  let is_file_duplicate := existing_doc.isSome
  let original_claim_id := existing_doc.map (fun d => d.claim_id)
  let claim : Claim :=
    { id := new_id
      claim_number := claim_number
      user_id := user_id
      status := .submitted
      category := .other
      total_amount := 0
      duplicate_score := if is_file_duplicate then 1 else 0 }
  let dmatches :=
    match original_claim_id with
    | some oid =>
        if is_file_duplicate then
          if db.dup_matches.any (fun m => m.claim_id == claim.id &&
              m.matched_claim_id == oid) then
            db.dup_matches
          else
            db.dup_matches ++
              [{ claim_id := claim.id
                 matched_claim_id := oid
                 similarity_score := 1
                 match_reasons := ["Exact file duplicate (same file hash)"] }]
        else db.dup_matches
    | none => db.dup_matches
  let claim :=
    if is_file_duplicate ∧ original_claim_id.isSome then
      { claim with duplicate_score := 1 }
    else claim
  let document : ClaimDocument :=
    { claim_id := claim.id
      file_name := file.filename
      file_hash := file_hash
      file_type := file.content_type
      file_size := file.size }
  let ai := aiBranchActive process_with_ai file
  let document :=
    if ai then
      { document with
        ocr_text := some ocr.text
        ocr_quality_score := some ocr.quality_score }
    else document
  let claim :=
    if ai then
      let claim := { claim with ocr_quality_score := some ocr.quality_score }
      let claim :=
        match extracted with
        | some ed => extract_fields_update claim ed ocr.text
        | none => claim
      { claim with status := .extracted }
    else claim
  let detection :=
    if ai ∧ !is_file_duplicate then
      let r := find_duplicates { db with dup_matches := dmatches } claim (mkRat 6 10)
      (r.2.1, r.2.2.dup_matches)
    else (claim, dmatches)
  let claimF := detection.1
  let dbF : DB :=
    { db with
      claims := db.claims ++ [claimF]
      dup_matches := detection.2
      documents := db.documents ++ [document] }
  (claimF, dbF)

/-- ClaimService.add_document: an upload whose hash already exists on the
same claim returns immediately (skip duplicate); otherwise the document
row is added, the OCR branch runs as in intake, and the claim's
ocr_quality_score becomes the mean quality over the claim's documents
with a truthy (non-None, nonzero) score. autoflush makes the fresh row
visible to the averaging query. -/
def add_document (db : DB) (claim : Claim) (file : UploadFile)
    (ocr : OcrResult) (extracted : Option ExtractedData) : Claim × DB :=
  let file_hash := file.bytes_hash
  match db.documents.find? (fun d => d.claim_id == claim.id &&
      d.file_hash == file_hash) with
  | some _ => (claim, db)
  | none =>
    let document : ClaimDocument :=
      { claim_id := claim.id
        file_name := file.filename
        file_hash := file_hash
        file_type := file.content_type
        file_size := file.size }
    if aiBranchActive true file then
      let document :=
        { document with
          ocr_text := some ocr.text
          ocr_quality_score := some ocr.quality_score }
      let claim :=
        match extracted with
        | some ed => extract_fields_update claim ed ocr.text
        | none => claim
      let all_docs := (db.documents ++ [document]).filter
        (fun d => d.claim_id == claim.id)
      let scores := (all_docs.filter (fun d =>
        match d.ocr_quality_score with
        | some q => q ≠ 0
        | none => false)).filterMap (fun d => d.ocr_quality_score)
      let claim :=
        if scores ≠ [] then
          { claim with
            ocr_quality_score := some (scores.sum / (scores.length : ℚ)) }
        else claim
      (claim, { db with documents := db.documents ++ [document] })
    else
      (claim, { db with documents := db.documents ++ [document] })

/-! ### Theorems -/

/-- The adjacency table coded in _get_valid_transitions coincides with the
table of §4.4 of the spec. -/
theorem getValidTransitions_eq_spec (s : ClaimStatus) :
    getValidTransitions s = specAdjacency s := by
  cases s <;> rfl

/-- C1: for every claim and every pair (current status, target status),
transition_status succeeds — setting the claim's status to the target —
iff the target is in the fixed adjacency table of §4.4; otherwise it
rejects with the illegal-transition error and (being pure before the
raise) leaves the claim's status unchanged. -/
theorem transition_status_iff_spec_edge (c : Claim) (t : ClaimStatus)
    (now : Nat) :
    (t ∈ specAdjacency c.status →
      ∃ c2, transition_status c t now = Except.ok c2 ∧ c2.status = t) ∧
    (t ∉ specAdjacency c.status →
      transition_status c t now =
        Except.error (illegalTransitionMsg c.status t)) := by
  have hadj : getValidTransitions c.status = specAdjacency c.status :=
    getValidTransitions_eq_spec c.status
  constructor
  · intro h
    simp only [transition_status]
    rw [hadj, if_pos h]
    split
    · exact ⟨_, rfl, rfl⟩
    · split
      · exact ⟨_, rfl, rfl⟩
      · exact ⟨_, rfl, rfl⟩
  · intro h
    simp only [transition_status]
    rw [hadj, if_neg h]

/-- Witness for C1 at a concrete input: DRAFT → SUBMITTED is an edge and
succeeds, landing on SUBMITTED. -/
theorem transition_status_iff_spec_edge_witness :
    ∃ c2, transition_status { id := 1, claim_number := "CLM-1", user_id := 7 }
        ClaimStatus.submitted 5 = Except.ok c2 ∧
      c2.status = ClaimStatus.submitted :=
  (transition_status_iff_spec_edge
    { id := 1, claim_number := "CLM-1", user_id := 7 }
    ClaimStatus.submitted 5).1 (by decide)

/-- An empty database, a minimal claim and a rule with an unrecognized
rule_type, for concrete evaluations. -/
def db0 : DB := {}

/-- A minimal claim for concrete evaluations. -/
def claim0 : Claim := { id := 1, claim_number := "CLM-1", user_id := 7 }

/-- A rule whose rule_type is outside the eight recognized types. -/
def unknownRule : ValidationRule :=
  { id := 11, name := "mystery", rule_type := "fraud_ml" }

/-- C4: the claim demands passed = False for an unrecognized rule_type,
but the unknown-type branch of _evaluate_rule only sets the diagnostic
message and leaves the initialisation passed = True in place, so the code
returns a PASSED result carrying the diagnostic: evaluated at the failing
input (a rule of type "fraud_ml"), passed is true. -/
theorem unknown_rule_type_passes_open :
    (evaluate_rule db0 0 claim0 unknownRule).passed = true ∧
    (evaluate_rule db0 0 claim0 unknownRule).message =
      some "Unknown rule type: fraud_ml" := by
  constructor <;> rfl

/-- The error message built in the except branch is never empty, so
Python's `message or rule.error_message` keeps it. -/
theorem ruleErrorMsg_ne_empty (e : String) :
    ("Rule evaluation error: " ++ e) ≠ "" := by
  intro h
  have hlen : ("Rule evaluation error: " ++ e).length = 0 := by
    rw [h]; rfl
  rw [String.length_append] at hlen
  have h22 : "Rule evaluation error: ".length = 23 := by decide
  omega

/-- C5: for every behaviour of the per-rule try-block body (so in
particular for a body that raises on some rules), validate_claim returns
one ValidationResult per applicable rule, the i-th result is a function of
the i-th rule alone (a throwing rule never aborts the rest of the batch),
and a rule whose evaluation raises e yields passed = false with the error
text in the message. -/
theorem validate_claim_fault_isolation
    (body : Claim → ValidationRule → Except String (Bool × Option String))
    (db : DB) (claim : Claim) :
    (validateClaimWith body db claim).length =
      (applicableRules db claim).length ∧
    (∀ i (h1 : i < (validateClaimWith body db claim).length)
        (h2 : i < (applicableRules db claim).length),
      (validateClaimWith body db claim).get ⟨i, h1⟩ =
        evaluateRuleWith body claim ((applicableRules db claim).get ⟨i, h2⟩)) ∧
    (∀ rule e, body claim rule = Except.error e →
      (evaluateRuleWith body claim rule).passed = false ∧
      (evaluateRuleWith body claim rule).message =
        some ("Rule evaluation error: " ++ e)) := by
  refine ⟨?_, ?_, ?_⟩
  · simp [validateClaimWith]
  · intro i h1 h2
    simp [validateClaimWith]
  · intro rule e herr
    unfold evaluateRuleWith
    rw [herr]
    refine ⟨rfl, ?_⟩
    simp only [pyOrStr]
    rw [if_neg (ruleErrorMsg_ne_empty e)]

/-- A try-block body that raises on every rule. -/
def raisingBody : Claim → ValidationRule → Except String (Bool × Option String) :=
  fun _ _ => Except.error "boom"

/-- Witness for C5 at a concrete input: a rule whose evaluation raises
"boom" yields a failed result carrying the error text. -/
theorem validate_claim_fault_isolation_witness :
    (evaluateRuleWith raisingBody claim0 unknownRule).passed = false ∧
    (evaluateRuleWith raisingBody claim0 unknownRule).message =
      some "Rule evaluation error: boom" :=
  (validate_claim_fault_isolation raisingBody db0 claim0).2.2
    unknownRule "boom" rfl

/-- C3 amended: the evaluator treats a cap of 0 as "no cap configured",
not as "no cap allowed": _check_plan_thresholds compares the amount only
when the cap is positive, so with cap 0 the threshold failures are
independent of the claim's total_amount and contain no cap violation. -/
theorem cap_zero_skips_amount_check (claim : Claim) (plan : Plan)
    (h : plan.auto_approve_amount_cap = 0) (a : ℚ) :
    check_plan_thresholds { claim with total_amount := a } plan =
      check_plan_thresholds claim plan := by
  have hup : uploadedTypes { claim with total_amount := a } =
      uploadedTypes claim := rfl
  simp only [check_plan_thresholds, h, hup]
  simp

/-- Witness for the amended C3 at a concrete input: with cap 0, raising
the amount from 0 to 100 changes no threshold failure. -/
theorem cap_zero_skips_amount_check_witness :
    check_plan_thresholds { claim0 with total_amount := 100 }
        { id := 31, name := "ZeroCap", auto_approve_enabled := true,
          auto_approve_amount_cap := 0 } =
      check_plan_thresholds claim0
        { id := 31, name := "ZeroCap", auto_approve_enabled := true,
          auto_approve_amount_cap := 0 } :=
  cap_zero_skips_amount_check claim0
    { id := 31, name := "ZeroCap", auto_approve_enabled := true,
      auto_approve_amount_cap := 0 } rfl 100

/-- A plan with auto-approval enabled and an amount cap of 0. -/
def plan3 : Plan :=
  { id := 31, name := "ZeroCap", auto_approve_enabled := true,
    auto_approve_amount_cap := 0 }

/-- A nonzero-amount claim under the cap-0 plan. -/
def claim3 : Claim :=
  { id := 32, claim_number := "CLM-3", user_id := 7, plan_id := some 31,
    total_amount := 100 }

/-- The database holding only plan3. -/
def db3 : DB := { plans := [plan3] }

/-- C3 counterexample: a claim with total_amount 100 under an active,
auto-approve-enabled plan whose cap is 0 — the claim says evaluate_claim
must return eligible = False with a cap-violation reason, but the code
skips the amount check entirely and returns eligible = True (the input
has no rules, so the summary is clean and the step-3 warning branch is
not entered). -/
theorem cap_zero_claim_eligible_counterexample :
    claim3.total_amount = 100 ∧ plan3.auto_approve_amount_cap = 0 ∧
    plan3.is_active = true ∧ plan3.auto_approve_enabled = true ∧
    claim3.plan_id = some plan3.id ∧
    (evaluate_claim db3 0 claim3).map (fun out => out.1) =
      Except.ok true := by
  refine ⟨rfl, rfl, rfl, rfl, rfl, ?_⟩
  rfl

/-- When the amount is within the cap, the OCR quality (when present) at
or above the plan minimum, the duplicate score at or below the plan
maximum, and every required document type uploaded, the plan-threshold
check collects no failure. -/
theorem check_plan_thresholds_nil (claim : Claim) (plan : Plan)
    (hcap : claim.total_amount ≤ plan.auto_approve_amount_cap)
    (hocr : ∀ q, claim.ocr_quality_score = some q →
      plan.min_ocr_quality_score ≤ q)
    (hdup : claim.duplicate_score ≤ plan.max_duplicate_score)
    (hdocs : ∀ t ∈ plan.required_documents, t ∈ uploadedTypes claim) :
    check_plan_thresholds claim plan = [] := by
  simp only [check_plan_thresholds]
  have h1 : ¬(plan.auto_approve_amount_cap > 0 ∧
      claim.total_amount > plan.auto_approve_amount_cap) := by
    rintro ⟨-, h⟩
    exact absurd hcap (not_le.mpr h)
  rw [if_neg h1]
  have h3 : ¬(claim.duplicate_score > plan.max_duplicate_score) :=
    not_lt.mpr hdup
  rw [if_neg h3]
  have hmiss : List.filter (fun t => decide (t ∉ uploadedTypes claim))
      plan.required_documents = [] := by
    rw [List.filter_eq_nil_iff]
    intro t ht
    simp [hdocs t ht]
  cases hoq : claim.ocr_quality_score with
  | none =>
    dsimp only
    simp [hmiss]
    exact fun _ => hdocs
  | some q =>
    have hq := hocr q hoq
    dsimp only
    rw [if_neg (not_lt.mpr hq)]
    simp [hmiss]
    exact fun _ => hdocs

/-- C2 amended: a claim satisfying the eight eligibility conditions of
§4.3 — active plan with auto-approve enabled, amount within cap, OCR
quality (when present) at or above the plan minimum, duplicate score at
or below the plan maximum, all required documents present, zero
error-severity rule failures, extraction confidence (when present) at or
above the plan minimum, fraud risk at or below the plan maximum — AND
whose validation summary additionally has zero warning-severity failures
is returned eligible = True; the counterexample shows that with any
warning-severity failure the eight conditions do NOT yield eligible=True:
the call crashes in step 3 instead of returning. -/
theorem eight_conditions_and_no_warnings_eligible
    (db : DB) (today : Int) (claim : Claim) (plan : Plan)
    (hpid : claim.plan_id = some plan.id)
    (hplan : planOfClaim db claim = some plan)
    (hen : plan.auto_approve_enabled = true)
    (hact : plan.is_active = true)
    (hcap : claim.total_amount ≤ plan.auto_approve_amount_cap)
    (hocr : ∀ q, claim.ocr_quality_score = some q →
      plan.min_ocr_quality_score ≤ q)
    (hdup : claim.duplicate_score ≤ plan.max_duplicate_score)
    (hdocs : ∀ t ∈ plan.required_documents, t ∈ uploadedTypes claim)
    (hvalid : (get_validation_summary
      (validate_claim db today claim)).is_valid = true)
    (hwarn : (get_validation_summary
      (validate_claim db today claim)).warnings = 0)
    (hconf : ∀ c, claim.extraction_confidence = some c →
      plan.min_confidence_score ≤ c)
    (hfraud : claim.fraud_risk_score ≤ plan.max_fraud_risk_score) :
    (evaluate_claim db today claim).map (fun out => out.1) =
      Except.ok true ∧
    (evaluate_claim db today claim).map
      (fun out => out.2.2.auto_approval_eligible) = Except.ok true := by
  have hfind : db.plans.find? (fun p => p.id == plan.id) = some plan := by
    simpa [planOfClaim, hpid] using hplan
  have hnil := check_plan_thresholds_nil claim plan hcap hocr hdup hdocs
  have hfraud2 : ¬(claim.fraud_risk_score > plan.max_fraud_risk_score) :=
    not_lt.mpr hfraud
  cases hconf0 : claim.extraction_confidence with
  | none =>
    by_cases hf : claim.fraud_risk_score > 0
    · simp [evaluate_claim, Except.map, hpid, hfind, hen, hact, hnil,
        hvalid, hwarn, hconf0, hplan, hf, hfraud2]
    · simp [evaluate_claim, Except.map, hpid, hfind, hen, hact, hnil,
        hvalid, hwarn, hconf0, hplan, hf]
  | some c =>
    have hc2 : ¬(c < plan.min_confidence_score) :=
      not_lt.mpr (hconf c hconf0)
    by_cases hf : claim.fraud_risk_score > 0
    · simp [evaluate_claim, Except.map, hpid, hfind, hen, hact, hnil,
        hvalid, hwarn, hconf0, hplan, hc2, hf, hfraud2]
    · simp [evaluate_claim, Except.map, hpid, hfind, hen, hact, hnil,
        hvalid, hwarn, hconf0, hplan, hc2, hf]

/-- Scenario A plan: active, auto-approve enabled, cap 500. -/
def planA : Plan :=
  { id := 41, name := "Gold", auto_approve_enabled := true,
    auto_approve_amount_cap := 500 }

/-- Scenario A claim: amount 250, ocr_quality 0.9, confidence 0.9,
duplicate_score 0.1, fraud_risk 0.05. -/
def claimA : Claim :=
  { id := 42, claim_number := "CLM-A", user_id := 7, plan_id := some 41,
    status := .validated, total_amount := 250,
    ocr_quality_score := some (mkRat 9 10),
    extraction_confidence := some (mkRat 9 10),
    duplicate_score := mkRat 1 10, fraud_risk_score := mkRat 5 100 }

/-- A database with Scenario A's plan and no rules. -/
def dbA : DB := { plans := [planA] }

/-- Witness for the amended C2 at Scenario A: amount 250 under cap 500,
scores within thresholds, no rules (hence zero errors and zero warnings)
— eligible. -/
theorem eight_conditions_and_no_warnings_eligible_witness :
    (evaluate_claim dbA 0 claimA).map (fun out => out.1) =
      Except.ok true ∧
    (evaluate_claim dbA 0 claimA).map
      (fun out => out.2.2.auto_approval_eligible) = Except.ok true :=
  eight_conditions_and_no_warnings_eligible dbA 0 claimA planA
    rfl rfl rfl rfl (by decide)
    (by intro q hq; injection hq with h; rw [← h]; decide)
    (by decide)
    (by intro t ht; exact absurd ht (List.not_mem_nil t))
    rfl rfl
    (by intro c hc; injection hc with h; rw [← h]; decide)
    (by decide)

/-- A plan-independent warning-severity rule the Scenario A claim fails:
amount_limit with max 10. -/
def warnRule : ValidationRule :=
  { id := 43, name := "small-amount", rule_type := "amount_limit",
    condition := { max_amount := some 10 }, severity := "warning" }

/-- The Scenario A database plus the warning rule. -/
def dbW : DB := { plans := [planA], rules := [warnRule] }

/-- C2 counterexample: at this input all eight §4.3 conditions hold (in
particular the summary has zero error-severity failures), yet
evaluate_claim does NOT return eligible = True: the claim has one
warning-severity rule failure, so step 3 enters its branch and the
len() call on the integer warnings count raises TypeError — the call
crashes instead of producing the verdict the claim demands. -/
theorem warnings_block_eligibility_counterexample :
    claimA.plan_id = some planA.id ∧
    planOfClaim dbW claimA = some planA ∧
    planA.auto_approve_enabled = true ∧
    planA.is_active = true ∧
    claimA.total_amount ≤ planA.auto_approve_amount_cap ∧
    (∀ q, claimA.ocr_quality_score = some q →
      planA.min_ocr_quality_score ≤ q) ∧
    claimA.duplicate_score ≤ planA.max_duplicate_score ∧
    (∀ t ∈ planA.required_documents, t ∈ uploadedTypes claimA) ∧
    (get_validation_summary (validate_claim dbW 0 claimA)).errors = 0 ∧
    (get_validation_summary (validate_claim dbW 0 claimA)).warnings = 1 ∧
    (∀ c, claimA.extraction_confidence = some c →
      planA.min_confidence_score ≤ c) ∧
    claimA.fraud_risk_score ≤ planA.max_fraud_risk_score ∧
    evaluate_claim dbW 0 claimA =
      Except.error "object of type 'int' has no len()" := by
  refine ⟨rfl, rfl, rfl, rfl, by decide, ?_, by decide, ?_, ?_, ?_, ?_,
    by decide, ?_⟩
  · intro q hq; injection hq with h; rw [← h]; decide
  · intro t ht; exact absurd ht (List.not_mem_nil t)
  · rfl
  · rfl
  · intro c hc; injection hc with h; rw [← h]; decide
  · rfl

/-- Folding max keeps the start value as a lower bound. -/
theorem foldl_max_le (l : List ℚ) (a x : ℚ) (h : x ≤ a) :
    x ≤ l.foldl max a := by
  induction l generalizing a with
  | nil => simpa using h
  | cons b t ih => exact ih (max a b) (le_trans h (le_max_left a b))

/-- Folding max bounds every member of the list. -/
theorem mem_le_foldl_max (l : List ℚ) (a x : ℚ) (hx : x ∈ l) :
    x ≤ l.foldl max a := by
  induction l generalizing a with
  | nil => cases hx
  | cons b t ih =>
    rcases List.mem_cons.mp hx with h | h
    · subst h
      exact foldl_max_le t (max a x) x (le_max_right a x)
    · exact ih (max a b) h

/-- Folding max attains either the start value or a member. -/
theorem foldl_max_mem (l : List ℚ) (a : ℚ) :
    l.foldl max a = a ∨ l.foldl max a ∈ l := by
  induction l generalizing a with
  | nil => exact Or.inl rfl
  | cons b t ih =>
    rcases ih (max a b) with h | h
    · rcases max_choice a b with hm | hm
      · exact Or.inl (by rw [List.foldl_cons, h, hm])
      · exact Or.inr (by rw [List.foldl_cons, h, hm]; exact List.mem_cons_self b t)
    · exact Or.inr (List.mem_cons_of_mem b h)

/-- The fold over entries computes the fold of their scores. -/
theorem foldl_max_score_eq (l : List DupEntry) (a : ℚ) :
    l.foldl (fun m e => max m e.similarity_score) a =
      (l.map (fun e => e.similarity_score)).foldl max a := by
  induction l generalizing a with
  | nil => rfl
  | cons b t ih => simp [List.foldl_cons, List.map_cons, ih]

/-- C6 amended: after find_duplicates, the claim's duplicate_score equals
the maximum similarity_score among the returned matches when at least one
match was found; when the match set is empty the claim — including any
stale nonzero duplicate_score it already carried — is returned UNCHANGED
(the source only assigns duplicate_score under `if duplicates:`), contrary
to the claimed reset to 0.0. -/
theorem find_duplicates_duplicate_score (db : DB) (claim : Claim) (t : ℚ) :
    ((find_duplicates db claim t).1 = [] →
      (find_duplicates db claim t).2.1 = claim) ∧
    (∀ d rest, (find_duplicates db claim t).1 = d :: rest →
      (∀ e ∈ d :: rest, e.similarity_score ≤
        (find_duplicates db claim t).2.1.duplicate_score) ∧
      ∃ e ∈ d :: rest,
        (find_duplicates db claim t).2.1.duplicate_score =
          e.similarity_score) := by
  constructor
  · intro h1
    simp only [find_duplicates] at h1 ⊢
    rw [h1]
  · intro d rest heq
    simp only [find_duplicates] at heq ⊢
    rw [heq]
    dsimp only
    rw [foldl_max_score_eq]
    constructor
    · intro e he
      rcases List.mem_cons.mp he with h | h
      · subst h
        exact foldl_max_le _ _ _ (le_refl e.similarity_score)
      · exact mem_le_foldl_max _ _ _
          (List.mem_map.mpr ⟨e, h, rfl⟩)
    · rcases foldl_max_mem (rest.map (fun e => e.similarity_score))
        d.similarity_score with h | h
      · exact ⟨d, List.mem_cons_self d rest, h⟩
      · obtain ⟨e, he, hscore⟩ := List.mem_map.mp h
        exact ⟨e, List.mem_cons_of_mem d he, by rw [← hscore]⟩

/-- A claim carrying a stale duplicate_score of 0.5 from an earlier run. -/
def claim6 : Claim :=
  { id := 61, claim_number := "CLM-6", user_id := 9,
    duplicate_score := mkRat 1 2 }

/-- C6 counterexample: against an empty candidate pool find_duplicates
returns no match, and the claim's stale duplicate_score of 0.5 is left in
place instead of the claimed reset to 0.0. -/
theorem find_duplicates_empty_keeps_stale_score :
    (find_duplicates db0 claim6 (mkRat 7 10)).1 = [] ∧
    (find_duplicates db0 claim6 (mkRat 7 10)).2.1.duplicate_score =
      mkRat 1 2 ∧
    (mkRat 1 2 : ℚ) ≠ 0 := by
  exact ⟨rfl, rfl, by decide⟩

/-- Witness for the amended C6 at a concrete input: the empty-pool run
returns the claim unchanged. -/
theorem find_duplicates_duplicate_score_witness :
    (find_duplicates db0 claim6 (mkRat 7 10)).2.1 = claim6 :=
  (find_duplicates_duplicate_score db0 claim6 (mkRat 7 10)).1 rfl

/-- A claim already in the terminal CLOSED state. -/
def claimClosed : Claim :=
  { id := 71, claim_number := "CLM-7", user_id := 7, status := .closed }

/-- C7 counterexample: route_to_agent_queue moves a CLOSED claim to
PENDING_REVIEW by direct assignment even though CLOSED has no outgoing
edge in the §4.4 graph — the services mutate status without going through
the state machine. -/
theorem route_to_agent_queue_ignores_graph :
    (route_to_agent_queue claimClosed [] 0).status =
      ClaimStatus.pending_review ∧
    claimClosed.status = ClaimStatus.closed ∧
    ClaimStatus.pending_review ∉ specAdjacency ClaimStatus.closed :=
  ⟨rfl, rfl, by decide⟩

/-- C7 amended: the §4.4 graph is enforced only by transition_status;
auto_approval_service assigns statuses directly, so from ANY current
state route_to_agent_queue lands on PENDING_REVIEW and auto_approve_claim
(on an eligibility-flagged claim) lands on AUTO_APPROVED, while a
successful transition_status always follows a spec edge. -/
theorem status_graph_enforced_only_by_transition (claim : Claim)
    (reasons : List (Option String)) (now : Nat) (t : ClaimStatus) :
    (route_to_agent_queue claim reasons now).status =
      ClaimStatus.pending_review ∧
    (claim.auto_approval_eligible = true →
      ∃ d c2, auto_approve_claim claim now = Except.ok (d, c2) ∧
        c2.status = ClaimStatus.auto_approved) ∧
    (∀ c2, transition_status claim t now = Except.ok c2 →
      t ∈ specAdjacency claim.status) := by
  refine ⟨rfl, ?_, ?_⟩
  · intro h
    simp only [auto_approve_claim, h, Bool.not_true]
    exact ⟨_, _, rfl, rfl⟩
  · intro c2 hok
    by_contra hmem
    have hadj := getValidTransitions_eq_spec claim.status
    simp only [transition_status, hadj] at hok
    rw [if_neg hmem] at hok
    cases hok

/-- A CLOSED claim flagged eligible by an earlier evaluation. -/
def claimElig : Claim :=
  { id := 72, claim_number := "CLM-8", user_id := 7, status := .closed,
    auto_approval_eligible := true }

/-- Witness for the amended C7 at a concrete input: from CLOSED,
route_to_agent_queue lands on PENDING_REVIEW and auto_approve_claim lands
on AUTO_APPROVED. -/
theorem status_graph_enforced_only_by_transition_witness :
    (route_to_agent_queue claimElig [] 0).status =
      ClaimStatus.pending_review ∧
    ∃ d c2, auto_approve_claim claimElig 0 = Except.ok (d, c2) ∧
      c2.status = ClaimStatus.auto_approved :=
  ⟨(status_graph_enforced_only_by_transition claimElig [] 0
      ClaimStatus.closed).1,
   (status_graph_enforced_only_by_transition claimElig [] 0
      ClaimStatus.closed).2.1 rfl⟩

/-- Each signal can only raise the score. -/
theorem amountSignal_fst_le (claim other : Claim) (acc : ℚ × List String) :
    acc.1 ≤ (amountSignal claim other acc).1 := by
  unfold amountSignal
  split
  · dsimp only
    split
    · simp only [Rat.mkRat_eq_divInt, Rat.divInt_eq_div]
      norm_num
    · exact le_refl _
  · exact le_refl _

/-- The date signal can only raise the score. -/
theorem dateSignal_fst_le (claim other : Claim) (acc : ℚ × List String) :
    acc.1 ≤ (dateSignal claim other acc).1 := by
  unfold dateSignal
  split
  · dsimp only
    split
    · simp only [Rat.mkRat_eq_divInt, Rat.divInt_eq_div]
      norm_num
    · exact le_refl _
  · exact le_refl _

/-- The provider signal can only raise the score. -/
theorem providerSignal_fst_le (claim other : Claim) (acc : ℚ × List String) :
    acc.1 ≤ (providerSignal claim other acc).1 := by
  unfold providerSignal
  split
  · split
    · simp only [Rat.mkRat_eq_divInt, Rat.divInt_eq_div]
      norm_num
    · exact le_refl _
  · exact le_refl _

/-- The category signal can only raise the score. -/
theorem categorySignal_fst_le (claim other : Claim) (acc : ℚ × List String) :
    acc.1 ≤ (categorySignal claim other acc).1 := by
  unfold categorySignal
  split
  · simp only [Rat.mkRat_eq_divInt, Rat.divInt_eq_div]
    norm_num
  · exact le_refl _

/-- The procedure-code signal can only raise the score. -/
theorem codesSignal_fst_le (claim other : Claim) (acc : ℚ × List String) :
    acc.1 ≤ (codesSignal claim other acc).1 := by
  unfold codesSignal
  split
  · dsimp only
    split
    · simp only [Rat.mkRat_eq_divInt, Rat.divInt_eq_div]
      norm_num
    · exact le_refl _
  · exact le_refl _

/-- The amount signal adds exactly 0.3 when both amounts are nonzero and
within the 5% proximity band. -/
theorem amountSignal_fst_of_close (claim other : Claim)
    (acc : ℚ × List String)
    (h1 : claim.total_amount ≠ 0) (h2 : other.total_amount ≠ 0)
    (h : |claim.total_amount - other.total_amount| /
      max claim.total_amount 1 < mkRat 5 100) :
    (amountSignal claim other acc).1 = acc.1 + mkRat 3 10 := by
  unfold amountSignal
  rw [if_pos ⟨h1, h2⟩]
  dsimp only
  rw [if_pos h]

/-- The date signal adds exactly 0.3 when both dates are present and at
most 7 days apart. -/
theorem dateSignal_fst_of_close (claim other : Claim)
    (acc : ℚ × List String) (d1 d2 : Int)
    (h1 : claim.service_date = some d1) (h2 : other.service_date = some d2)
    (h : |d1 - d2| ≤ 7) :
    (dateSignal claim other acc).1 = acc.1 + mkRat 3 10 := by
  unfold dateSignal
  rw [h1, h2]
  dsimp only
  rw [if_pos h]

/-- Two claims of the same claimant with amounts 100 and 102 (either
way round) and an identical service date collect at least the amount and
date signals: similarity at least 0.6. -/
theorem similarity_ge_amount_date (claim other : Claim)
    (hamt : (claim.total_amount = 100 ∧ other.total_amount = 102) ∨
      (claim.total_amount = 102 ∧ other.total_amount = 100))
    (hdate : ∃ d, claim.service_date = some d ∧
      other.service_date = some d) :
    mkRat 6 10 ≤ (similarity claim other).1 := by
  obtain ⟨d, hd1, hd2⟩ := hdate
  have hA : (amountSignal claim other (0, [])).1 = 0 + mkRat 3 10 := by
    rcases hamt with ⟨h1, h2⟩ | ⟨h1, h2⟩ <;>
      refine amountSignal_fst_of_close claim other (0, [])
        (by rw [h1]; norm_num) (by rw [h2]; norm_num) ?_ <;>
      rw [h1, h2] <;>
      simp only [Rat.mkRat_eq_divInt, Rat.divInt_eq_div]
    · rw [abs_of_nonpos (by norm_num), max_eq_left (by norm_num)]
      norm_num
    · rw [abs_of_nonneg (by norm_num), max_eq_left (by norm_num)]
      norm_num
  have hD : (dateSignal claim other (amountSignal claim other (0, []))).1 =
      (amountSignal claim other (0, [])).1 + mkRat 3 10 :=
    dateSignal_fst_of_close claim other _ d d hd1 hd2 (by simp)
  have hbase : mkRat 6 10 ≤
      (dateSignal claim other (amountSignal claim other (0, []))).1 := by
    rw [hD, hA]
    simp only [Rat.mkRat_eq_divInt, Rat.divInt_eq_div]
    norm_num
  unfold similarity
  exact le_trans hbase (le_trans
    (providerSignal_fst_le claim other _)
    (le_trans (categorySignal_fst_le claim other _)
      (codesSignal_fst_le claim other _)))

/-- A recorded pair row survives one loop iteration. -/
theorem findDupStep_mono (claim : Claim) (t : ℚ)
    (acc : List DupEntry × List DuplicateMatch) (other : Claim)
    (m : DuplicateMatch) (hm : m ∈ acc.2) :
    m ∈ (findDupStep claim t acc other).2 := by
  unfold findDupStep
  dsimp only
  by_cases hs : (similarity claim other).1 ≥ t
  · rw [if_pos hs]
    dsimp only
    by_cases hany : acc.2.any (fun mm => mm.claim_id == claim.id &&
        mm.matched_claim_id == other.id)
    · rw [if_pos hany]
      exact hm
    · rw [if_neg hany]
      exact List.mem_append_left _ hm
  · rw [if_neg hs]
    exact hm

/-- Processing a candidate whose similarity reaches the threshold leaves
a row for the ordered pair in the accumulator. -/
theorem findDupStep_records (claim : Claim) (t : ℚ)
    (acc : List DupEntry × List DuplicateMatch) (other : Claim)
    (hscore : (similarity claim other).1 ≥ t) :
    ∃ m ∈ (findDupStep claim t acc other).2,
      m.claim_id = claim.id ∧ m.matched_claim_id = other.id := by
  unfold findDupStep
  dsimp only
  rw [if_pos hscore]
  dsimp only
  by_cases hany : acc.2.any (fun m => m.claim_id == claim.id &&
      m.matched_claim_id == other.id)
  · rw [if_pos hany]
    obtain ⟨m, hm, hp⟩ := List.any_eq_true.mp hany
    rw [Bool.and_eq_true] at hp
    exact ⟨m, hm, eq_of_beq hp.1, eq_of_beq hp.2⟩
  · rw [if_neg hany]
    exact ⟨_, List.mem_append_right _ (List.mem_singleton_self _), rfl, rfl⟩

/-- A recorded pair row survives the rest of the fold. -/
theorem foldl_findDupStep_mono (claim : Claim) (t : ℚ) (l : List Claim)
    (acc : List DupEntry × List DuplicateMatch) (m : DuplicateMatch)
    (hm : m ∈ acc.2) :
    m ∈ (l.foldl (findDupStep claim t) acc).2 := by
  induction l generalizing acc with
  | nil => exact hm
  | cons b rest ih =>
    exact ih (findDupStep claim t acc b) (findDupStep_mono claim t acc b m hm)

/-- The fold records a row for every qualifying member of the pool. -/
theorem foldl_findDupStep_records (claim : Claim) (t : ℚ)
    (l : List Claim) (acc : List DupEntry × List DuplicateMatch)
    (other : Claim) (hmem : other ∈ l)
    (hscore : (similarity claim other).1 ≥ t) :
    ∃ m ∈ (l.foldl (findDupStep claim t) acc).2,
      m.claim_id = claim.id ∧ m.matched_claim_id = other.id := by
  induction l generalizing acc with
  | nil => cases hmem
  | cons b rest ih =>
    rcases List.mem_cons.mp hmem with h | h
    · subst h
      obtain ⟨m, hm, hp⟩ := findDupStep_records claim t acc other hscore
      exact ⟨m, foldl_findDupStep_mono claim t rest _ m hm, hp⟩
    · exact ih (findDupStep claim t acc b) h

/-- C9: for every two claims of the same claimant with amounts 100 and
102 and an identical service date (the second claim in the pool, i.e.
stored, distinct and neither DRAFT nor DENIED), the similarity is at
least 0.6 — amount proximity (|100-102|/max(100,1) < 5%) plus date
proximity (0 ≤ 7 days) — and find_duplicates at the intake threshold 0.6
records a DuplicateMatch row for the pair. -/
theorem close_pair_scores_and_recorded (db : DB) (claim other : Claim)
    (hmem : other ∈ db.claims) (hid : other.id ≠ claim.id)
    (huser : other.user_id = claim.user_id)
    (hs1 : other.status ≠ ClaimStatus.draft)
    (hs2 : other.status ≠ ClaimStatus.denied)
    (hamt : (claim.total_amount = 100 ∧ other.total_amount = 102) ∨
      (claim.total_amount = 102 ∧ other.total_amount = 100))
    (hdate : ∃ d, claim.service_date = some d ∧
      other.service_date = some d) :
    mkRat 6 10 ≤ (similarity claim other).1 ∧
    ∃ m ∈ (find_duplicates db claim (mkRat 6 10)).2.2.dup_matches,
      m.claim_id = claim.id ∧ m.matched_claim_id = other.id := by
  have hsim := similarity_ge_amount_date claim other hamt hdate
  refine ⟨hsim, ?_⟩
  have hpool : other ∈ dupCandidates db claim := by
    unfold dupCandidates
    rw [List.mem_filter]
    exact ⟨hmem, by simp [hid, huser, hs1, hs2]⟩
  simp only [find_duplicates]
  exact foldl_findDupStep_records claim (mkRat 6 10) _ _ other hpool hsim

/-- The stored half of the Scenario C pair: same claimant, amount 102,
same service date, already SUBMITTED. -/
def claimC2 : Claim :=
  { id := 92, claim_number := "CLM-C2", user_id := 9, status := .submitted,
    total_amount := 102, service_date := some 20000 }

/-- The incoming half of the Scenario C pair: amount 100, same date. -/
def claimC1 : Claim :=
  { id := 91, claim_number := "CLM-C1", user_id := 9, status := .extracted,
    total_amount := 100, service_date := some 20000 }

/-- The database holding the stored half of the pair. -/
def dbC : DB := { claims := [claimC2] }

/-- Witness for C9 at Scenario C's concrete pair. -/
theorem close_pair_scores_and_recorded_witness :
    mkRat 6 10 ≤ (similarity claimC1 claimC2).1 ∧
    ∃ m ∈ (find_duplicates dbC claimC1 (mkRat 6 10)).2.2.dup_matches,
      m.claim_id = claimC1.id ∧ m.matched_claim_id = claimC2.id :=
  close_pair_scores_and_recorded dbC claimC1 claimC2
    (List.mem_singleton_self claimC2) (by decide) rfl (by decide) (by decide)
    (Or.inl ⟨rfl, rfl⟩) ⟨20000, rfl, rfl⟩

/-- Each extraction stage touches neither duplicate_score nor id. -/
theorem efStages_preserve (ed : ExtractedData) (t : String) (c : Claim) :
    ((efConfidence ed c).duplicate_score = c.duplicate_score ∧
      (efConfidence ed c).id = c.id) ∧
    ((efAmount ed c).duplicate_score = c.duplicate_score ∧
      (efAmount ed c).id = c.id) ∧
    ((efProvider ed c).duplicate_score = c.duplicate_score ∧
      (efProvider ed c).id = c.id) ∧
    ((efServiceDate ed c).duplicate_score = c.duplicate_score ∧
      (efServiceDate ed c).id = c.id) ∧
    ((efClaimType ed c).duplicate_score = c.duplicate_score ∧
      (efClaimType ed c).id = c.id) ∧
    ((efKeywordCat t c).duplicate_score = c.duplicate_score ∧
      (efKeywordCat t c).id = c.id) := by
  unfold efConfidence efAmount efProvider efServiceDate efClaimType
    efKeywordCat
  refine ⟨⟨?_, ?_⟩, ⟨?_, ?_⟩, ⟨?_, ?_⟩, ⟨?_, ?_⟩, ⟨?_, ?_⟩, ⟨?_, ?_⟩⟩ <;>
    (repeat' split) <;> rfl

/-- The field-extraction updates never touch duplicate_score. -/
theorem extract_fields_update_duplicate_score (c : Claim)
    (ed : ExtractedData) (t : String) :
    (extract_fields_update c ed t).duplicate_score = c.duplicate_score := by
  unfold extract_fields_update
  rw [(efStages_preserve ed t _).2.2.2.2.2.1,
    (efStages_preserve ed t _).2.2.2.2.1.1,
    (efStages_preserve ed t _).2.2.2.1.1,
    (efStages_preserve ed t _).2.2.1.1,
    (efStages_preserve ed t _).2.1.1,
    (efStages_preserve ed t _).1.1]

/-- The field-extraction updates never touch the claim id. -/
theorem extract_fields_update_id (c : Claim) (ed : ExtractedData)
    (t : String) :
    (extract_fields_update c ed t).id = c.id := by
  unfold extract_fields_update
  rw [(efStages_preserve ed t _).2.2.2.2.2.2,
    (efStages_preserve ed t _).2.2.2.2.1.2,
    (efStages_preserve ed t _).2.2.2.1.2,
    (efStages_preserve ed t _).2.2.1.2,
    (efStages_preserve ed t _).2.1.2,
    (efStages_preserve ed t _).1.2]

/-- C8: when the uploaded file's content hash matches a previously stored
document, the new claim's duplicate_score is forced to 1.0 — the
heuristic detector is not even consulted (`if not is_file_duplicate`
guards it), so the heuristic score is irrelevant — and the database gains
exactly one DuplicateMatch row for (new claim, original claim) with score
1.0 and the exact-file-duplicate reason (the pair being fresh, the
idempotency lookup inserts exactly once). -/
theorem exact_hash_duplicate_forced (db : DB) (user_id : Nat)
    (file : UploadFile) (pai : Bool) (ocr : OcrResult)
    (ed : Option ExtractedData) (new_id : Nat) (cn : String)
    (origdoc : ClaimDocument)
    (hfound : db.documents.find? (fun d => d.file_hash == file.bytes_hash) =
      some origdoc)
    (hfresh : ∀ m ∈ db.dup_matches, m.claim_id ≠ new_id) :
    (create_claim_from_document db user_id file pai ocr ed new_id
      cn).1.duplicate_score = 1 ∧
    (create_claim_from_document db user_id file pai ocr ed new_id
      cn).2.dup_matches = db.dup_matches ++
      [{ claim_id := new_id, matched_claim_id := origdoc.claim_id,
         similarity_score := 1,
         match_reasons := ["Exact file duplicate (same file hash)"] }] ∧
    ((create_claim_from_document db user_id file pai ocr ed new_id
      cn).2.dup_matches.filter (fun m => m.claim_id == new_id &&
        m.matched_claim_id == origdoc.claim_id)).length = 1 := by
  have hany : db.dup_matches.any (fun m => m.claim_id == new_id &&
      m.matched_claim_id == origdoc.claim_id) = false := by
    rw [List.any_eq_false]
    intro m hm
    simp [hfresh m hm]
  have holdrows : db.dup_matches.filter (fun m => m.claim_id == new_id &&
      m.matched_claim_id == origdoc.claim_id) = [] := by
    rw [List.filter_eq_nil_iff]
    intro m hm
    simp [hfresh m hm]
  refine ⟨?_, ?_, ?_⟩
  · by_cases hai : aiBranchActive pai file
    · cases ed with
      | none => simp [create_claim_from_document, hfound, hai, hany]
      | some e =>
        simp [create_claim_from_document, hfound, hai, hany,
          extract_fields_update_duplicate_score]
    · simp [create_claim_from_document, hfound, hai, hany]
  · by_cases hai : aiBranchActive pai file
    · simp [create_claim_from_document, hfound, hai, hany]
    · simp [create_claim_from_document, hfound, hai, hany]
  · by_cases hai : aiBranchActive pai file
    · simp [create_claim_from_document, hfound, hai, hany,
        List.filter_append, holdrows]
    · simp [create_claim_from_document, hfound, hai, hany,
        List.filter_append, holdrows]

/-- The previously stored document for the intake-duplicate scenario. -/
def origDoc : ClaimDocument :=
  { claim_id := 81, file_name := "bill.png", file_hash := "h1",
    file_type := some "image/png", file_size := 10 }

/-- A database already holding origDoc. -/
def db8 : DB := { documents := [origDoc] }

/-- An upload whose bytes hash to the stored document's hash. -/
def file8 : UploadFile :=
  { filename := "bill2.png", content_type := some "image/png",
    bytes_hash := "h1", size := 10 }

/-- Witness for C8 at a concrete input: re-uploading the same bytes
forces duplicate_score 1 and records the exact-duplicate row once. -/
theorem exact_hash_duplicate_forced_witness :
    (create_claim_from_document db8 7 file8 false ⟨"", 0⟩ none 82
      "CLM-D").1.duplicate_score = 1 ∧
    (create_claim_from_document db8 7 file8 false ⟨"", 0⟩ none 82
      "CLM-D").2.dup_matches = db8.dup_matches ++
      [{ claim_id := 82, matched_claim_id := origDoc.claim_id,
         similarity_score := 1,
         match_reasons := ["Exact file duplicate (same file hash)"] }] ∧
    ((create_claim_from_document db8 7 file8 false ⟨"", 0⟩ none 82
      "CLM-D").2.dup_matches.filter (fun m => m.claim_id == 82 &&
        m.matched_claim_id == origDoc.claim_id)).length = 1 :=
  exact_hash_duplicate_forced db8 7 file8 false ⟨"", 0⟩ none 82 "CLM-D"
    origDoc rfl (by intro m hm; cases hm)

/-- add_document never changes the claim's id. -/
theorem add_document_id (db : DB) (claim : Claim) (file : UploadFile)
    (ocr : OcrResult) (ed : Option ExtractedData) :
    (add_document db claim file ocr ed).1.id = claim.id := by
  cases ed with
  | none =>
    unfold add_document
    dsimp only
    repeat' split
    all_goals rfl
  | some e =>
    unfold add_document
    dsimp only
    repeat' split
    all_goals first
      | rfl
      | simp [extract_fields_update_id]

/-- After a fresh upload the documents table gains exactly one row,
carrying the claim's id and the file's hash. -/
theorem add_document_fresh_docs (db : DB) (claim : Claim)
    (file : UploadFile) (ocr : OcrResult) (ed : Option ExtractedData)
    (hnone : db.documents.find? (fun d => d.claim_id == claim.id &&
      d.file_hash == file.bytes_hash) = none) :
    ∃ doc2, (add_document db claim file ocr ed).2.documents =
        db.documents ++ [doc2] ∧
      doc2.claim_id = claim.id ∧ doc2.file_hash = file.bytes_hash := by
  unfold add_document
  dsimp only
  rw [hnone]
  dsimp only
  split
  · exact ⟨_, rfl, rfl, rfl⟩
  · exact ⟨_, rfl, rfl, rfl⟩

/-- C10: add_document is idempotent per file content on a claim — an
upload whose SHA-256 hash already matches a document of the same claim
returns the claim and database unchanged with no second row, so two calls
with identical bytes leave exactly one ClaimDocument row for that
content. -/
theorem add_document_idempotent_per_content (db : DB) (claim : Claim)
    (file : UploadFile) (ocr : OcrResult) (ed : Option ExtractedData)
    (hnone : db.documents.find? (fun d => d.claim_id == claim.id &&
      d.file_hash == file.bytes_hash) = none) :
    (∀ (db2 : DB) (c2 : Claim) (ocr2 : OcrResult)
      (ed2 : Option ExtractedData) (d0 : ClaimDocument),
      db2.documents.find? (fun d => d.claim_id == c2.id &&
        d.file_hash == file.bytes_hash) = some d0 →
      add_document db2 c2 file ocr2 ed2 = (c2, db2)) ∧
    ((add_document db claim file ocr ed).2.documents.filter
      (fun d => d.claim_id == claim.id &&
        d.file_hash == file.bytes_hash)).length = 1 ∧
    (∀ (ocr2 : OcrResult) (ed2 : Option ExtractedData),
      add_document (add_document db claim file ocr ed).2
        (add_document db claim file ocr ed).1 file ocr2 ed2 =
      ((add_document db claim file ocr ed).1,
        (add_document db claim file ocr ed).2)) := by
  have hskip : ∀ (db2 : DB) (c2 : Claim) (ocr2 : OcrResult)
      (ed2 : Option ExtractedData) (d0 : ClaimDocument),
      db2.documents.find? (fun d => d.claim_id == c2.id &&
        d.file_hash == file.bytes_hash) = some d0 →
      add_document db2 c2 file ocr2 ed2 = (c2, db2) := by
    intro db2 c2 ocr2 ed2 d0 hf
    unfold add_document
    dsimp only
    rw [hf]
  obtain ⟨doc2, hdocs, hcid, hhash⟩ :=
    add_document_fresh_docs db claim file ocr ed hnone
  have hfilter0 : db.documents.filter (fun d => d.claim_id == claim.id &&
      d.file_hash == file.bytes_hash) = [] := by
    rw [List.filter_eq_nil_iff]
    intro x hx
    exact List.find?_eq_none.mp hnone x hx
  refine ⟨hskip, ?_, ?_⟩
  · rw [hdocs, List.filter_append, hfilter0]
    simp [hcid, hhash]
  · intro ocr2 ed2
    have hid := add_document_id db claim file ocr ed
    have hfind2 : (add_document db claim file ocr ed).2.documents.find?
        (fun d => d.claim_id == (add_document db claim file ocr ed).1.id &&
          d.file_hash == file.bytes_hash) = some doc2 := by
      rw [hid, hdocs, List.find?_append, hnone]
      simp [hcid, hhash]
    exact hskip _ _ ocr2 ed2 doc2 hfind2

/-- A claim with no documents yet. -/
def claim10 : Claim := { id := 101, claim_number := "CLM-10", user_id := 7 }

/-- A plain-text upload for the idempotence witness. -/
def file10 : UploadFile :=
  { filename := "receipt.txt", content_type := some "text/plain",
    bytes_hash := "hX", size := 3 }

/-- Witness for C10 at a concrete input: one row after the first upload,
and a second identical upload changes nothing. -/
theorem add_document_idempotent_per_content_witness :
    ((add_document db0 claim10 file10 ⟨"", 0⟩ none).2.documents.filter
      (fun d => d.claim_id == claim10.id &&
        d.file_hash == file10.bytes_hash)).length = 1 ∧
    add_document (add_document db0 claim10 file10 ⟨"", 0⟩ none).2
      (add_document db0 claim10 file10 ⟨"", 0⟩ none).1 file10 ⟨"", 0⟩ none =
    ((add_document db0 claim10 file10 ⟨"", 0⟩ none).1,
      (add_document db0 claim10 file10 ⟨"", 0⟩ none).2) :=
  ⟨(add_document_idempotent_per_content db0 claim10 file10 ⟨"", 0⟩ none
      rfl).2.1,
   (add_document_idempotent_per_content db0 claim10 file10 ⟨"", 0⟩ none
      rfl).2.2 ⟨"", 0⟩ none⟩

end ClaimSphere
